import Mathlib

/-!
A verification development for the `gpio-sensors` DHT sensor driver
(`src/dht.rs`).  The Rust source is shallowly embedded: bytes are `ℕ`
(with `% 256` where u8 arithmetic wraps), `f32` arithmetic is modelled
exactly over `ℚ`, wall-clock instants are `ℤ` milliseconds, and the GPIO
line together with the wall clock is an explicit environment (`ReadEnv`)
consumed by the capture loop.
-/

namespace GpioSensors

/-- `DhtType` from `src/dht.rs`: the three supported sensor variants. -/
inductive DhtType
  | DHT11
  | DHT21
  | DHT22
deriving DecidableEq, Repr

/-- `DhtValue` from `src/dht.rs`: a sensor variant together with the raw
5-byte payload `value`.  Bytes are natural numbers below 256. -/
structure DhtValue where
  dht_type : DhtType
  value : List ℕ
deriving DecidableEq, Repr

/-- `DhtValue::temperature` from `src/dht.rs` (lines 41-53).  The Rust
source matches on `&self.dht_type` with a first arm written `DHT11`.
Since the variant is not imported into scope, Rust treats `DHT11` there
as an identifier pattern that binds any value, so the first arm is taken
for every sensor variant and the `_` arm (the DHT21/DHT22 16-bit
sign-magnitude decode) is unreachable.  The function therefore returns
`self.value[2] as f32` unconditionally. -/
def DhtValue.temperature (v : DhtValue) : ℚ :=
  (v.value.getD 2 0 : ℚ)

/-- `DhtValue::humidity` from `src/dht.rs` (lines 56-65).  Same
unqualified-pattern situation as `DhtValue.temperature`: the `DHT11` arm
binds every variant, so the function returns `self.value[0] as f32`
unconditionally. -/
def DhtValue.humidity (v : DhtValue) : ℚ :=
  (v.value.getD 0 0 : ℚ)

/-- `DhtValue::temperature_f` from `src/dht.rs`: Celsius reading
converted to Fahrenheit. -/
def DhtValue.temperature_f (v : DhtValue) : ℚ :=
  v.temperature * 1.8 + 32

/-- The DHT21/DHT22 temperature rule exactly as the unreachable `_` arm
of `DhtValue::temperature` (and the spec) states it: magnitude
`((data[2] & 0x7F) * 256 + data[3]) / 10`, negated when bit `0x80` of
`data[2]` is set.  Used only to compare the code's actual behaviour
against the documented decode. -/
def dht22TemperatureRule (data : List ℕ) : ℚ :=
  let magnitude : ℚ := ((data.getD 2 0 % 128 : ℕ) * 256 + data.getD 3 0 : ℕ)
  (if 128 ≤ data.getD 2 0 then -1 else 1) * magnitude / 10

/-- The DHT21/DHT22 humidity rule exactly as the unreachable `_` arm of
`DhtValue::humidity` (and the spec) states it:
`(data[0] * 256 + data[1]) / 10`. -/
def dht22HumidityRule (data : List ℕ) : ℚ :=
  ((data.getD 0 0 * 256 + data.getD 1 0 : ℕ) : ℚ) / 10

/-- The checksum test from `DhtSensor::read_raw` (lines 318-319):
`data[4] as u16 == (data[0] + data[1] + data[2] + data[3]) & 0xFF`. -/
def checksumValid (data : List ℕ) : Bool :=
  data.getD 4 0 = (data.getD 0 0 + data.getD 1 0 + data.getD 2 0 + data.getD 3 0) % 256

/-- `heat_index` from `src/dht.rs` (lines 345-374), modelled exactly
over `ℚ`.  The `f32` square root used by the low-humidity correction is
an explicit function parameter `sq`, applied exactly where the source
calls `.sqrt()`; every other operation is rational arithmetic with the
source's literal coefficients (integral constants such as `79.0` are
written as the equal integer literals). -/
def heat_index (sq : ℚ → ℚ) (temp humidity : ℚ) (fahrenheit : Bool) : ℚ :=
  let temperature : ℚ := if fahrenheit then temp else temp * 1.8 + 32
  let simple : ℚ :=
    0.5 * (temperature + 61 + ((temperature - 68) * 1.2) + (humidity * 0.094))
  let hi : ℚ :=
    if simple > 79 then
      let reg : ℚ :=
        -42.379 + 2.04901523 * temperature + 10.14333127 * humidity
          + -0.22475541 * temperature * humidity
          + -0.00683783 * temperature ^ 2 + -0.05481717 * humidity ^ 2
          + 0.00122874 * temperature ^ 2 * humidity
          + 0.00085282 * temperature * humidity ^ 2
          + -0.00000199 * temperature ^ 2 * humidity ^ 2
      if humidity < 13 ∧ 80 ≤ temperature ∧ temperature ≤ 112 then
        reg - ((13 - humidity) * 0.25) * sq ((17 - |temperature - 95|) * 0.05882)
      else if humidity > 85 ∧ 80 ≤ temperature ∧ temperature ≤ 87 then
        reg + ((humidity - 85) * 0.1) * ((87 - temperature) * 0.2)
      else reg
    else simple
  if fahrenheit then hi else (hi - 32) * 0.55555

/-- The simple Steadman estimate, the first formula computed by
`heat_index` (line 350-351 of `src/dht.rs`). -/
def steadmanSimple (temperature humidity : ℚ) : ℚ :=
  0.5 * (temperature + 61 + ((temperature - 68) * 1.2) + (humidity * 0.094))

/-- The Rothfusz regression polynomial as written in `heat_index`
(lines 354-359 of `src/dht.rs`). -/
def rothfusz (temperature humidity : ℚ) : ℚ :=
  -42.379 + 2.04901523 * temperature + 10.14333127 * humidity
    + -0.22475541 * temperature * humidity
    + -0.00683783 * temperature ^ 2 + -0.05481717 * humidity ^ 2
    + 0.00122874 * temperature ^ 2 * humidity
    + 0.00085282 * temperature * humidity ^ 2
    + -0.00000199 * temperature ^ 2 * humidity ^ 2

/-- The `std::io::ErrorKind` values the driver uses: `Other` (the
initial accumulator of `read_until`), `TimedOut` (capture deadline) and
`InvalidData` (checksum failure). -/
inductive IoErrorKind
  | Other
  | TimedOut
  | InvalidData
deriving DecidableEq, Repr

/-- Result of a read operation, Rust's `Result<DhtValue, io::Error>`
with the error collapsed to its kind. -/
inductive DhtResult
  | ok (v : DhtValue)
  | error (e : IoErrorKind)
deriving DecidableEq, Repr

/-- The fields of `DhtSensor` (lines 80-86) that the read path touches:
`dht_type`, `last_read` (an `Instant`, modelled as integer milliseconds)
and `value` (the cached 5-byte payload).  The `pin` number is only ever
printed and the GPIO handle is externalised into the per-transaction
environment `ReadEnv`. -/
structure DhtSensor where
  dht_type : DhtType
  last_read : ℤ
  value : List ℕ
deriving DecidableEq, Repr

/-- `DhtSensor::new_common` (lines 97-110): a sensor constructed at time
`tNow` starts with `last_read = tNow - 1000 s` and an all-zero payload. -/
def DhtSensor.new_common (dht_type : DhtType) (tNow : ℤ) : DhtSensor :=
  ⟨dht_type, tNow - 1000 * 1000, List.replicate 5 0⟩

/-- Environment of one call to `DhtSensor::read`: the wall-clock values
returned by each `Instant::now()` and the GPIO levels seen by the
capture loop.  `samples n` is the level returned by the n-th
`gpio.read()` of the capture loop (`true` = high); `loopTime x` is the
clock at the deadline check once the sample counter reached `x`;
`tStart` is the clock from which the 10 ms `read_limit` is computed;
`tAccept` is the clock stored into `last_read` on a checksum-valid
capture; `tCacheCheck` and `tErr` are the clocks of `read`'s cache check
and error handling. -/
structure ReadEnv where
  tCacheCheck : ℤ
  tStart : ℤ
  loopTime : ℕ → ℤ
  tAccept : ℤ
  tErr : ℤ
  samples : ℕ → Bool

/-- The bit-capture loop of `DhtSensor::read_raw` (lines 255-275).
State: bucket index `i`, sample counter `x`, cycle-count buckets
`cycles` (83 entries).  Each iteration reads the line; if the level
matches the expected alternating parity of bucket `i` (`(i % 2 == 0) ==
v`) the bucket count is incremented, otherwise `i` advances.  After
incrementing `x`, every 7000th sample compares the clock with `limit`;
exceeding it records the timeout and breaks.  Returns
`(cycles, timedOut)`, or `none` when `fuel` runs out before the loop
exits (the source loop is unbounded). -/
def captureLoop (samples : ℕ → Bool) (times : ℕ → ℤ) (limit : ℤ) :
    ℕ → ℕ → ℕ → List ℕ → Option (List ℕ × Bool)
  | 0, _, _, _ => none
  | fuel + 1, i, x, cycles =>
    if i < 83 then
      let v := samples x
      let next :=
        if (decide (i % 2 = 0)) = v then (i, cycles.set i (cycles.getD i 0 + 1))
        else (i + 1, cycles)
      if (x + 1) % 7000 = 0 ∧ times (x + 1) > limit then
        some (next.2, true)
      else
        captureLoop samples times limit fuel next.1 (x + 1) next.2
    else
      some (cycles, false)

/-- One run of the capture phase of `read_raw`: all 83 buckets start at
zero, `i = x = 0`, and the deadline is `tStart + 10` ms (line 184). -/
def capture (env : ReadEnv) (fuel : ℕ) : Option (List ℕ × Bool) :=
  captureLoop env.samples env.loopTime (env.tStart + 10) fuel 0 0 (List.replicate 83 0)

/-- The pulse-decoding loop of `read_raw` (lines 292-304): for each of
the 40 bits compare the low-phase bucket `2*i+3` with the high-phase
bucket `2*i+4`; shift the destination byte `data[i/8]` left and set the
low bit exactly when the high phase outlasted the low phase.  `u8`
shifts wrap modulo 256. -/
def decodeData (cycles : List ℕ) : List ℕ :=
  (List.range 40).foldl
    (fun data i =>
      let low_cycle := cycles.getD (2 * i + 3) 0
      let high_cycle := cycles.getD (2 * i + 4) 0
      let b := data.getD (i / 8) 0
      data.set (i / 8) ((2 * b + if high_cycle > low_cycle then 1 else 0) % 256))
    [0, 0, 0, 0, 0]

/-- `DhtSensor::read_raw` (lines 179-331).  The start-signal GPIO writes
and sleeps do not touch the sensor state and are not modelled.  After
the capture loop the source would return the recorded `TimedOut` error,
but that early return sits inside the commented-out block (lines
279-286), so decode and checksum run on whatever was captured, timed out
or not, and the timeout flag is dead.  On a checksum match the payload
and `Instant::now()` are stored and the value is returned; otherwise an
`InvalidData` error is returned and the state is untouched. -/
def DhtSensor.read_raw (s : DhtSensor) (env : ReadEnv) (fuel : ℕ) :
    Option (DhtResult × DhtSensor) :=
  match capture env fuel with
  | none => none
  | some (cycles, _) =>
    let data := decodeData cycles
    if checksumValid data then
      some (.ok ⟨s.dht_type, data⟩, { s with value := data, last_read := env.tAccept })
    else
      some (.error .InvalidData, s)

/-- `DhtSensor::read` (lines 147-174).  Returns the cached payload when
it is younger than `MINIMUM_CACHE` (1250 ms); otherwise performs a
physical transaction; on a physical error returns the cached payload
when `last_read` is at most `CACHE_ON_ERROR` (5 s) old, else propagates
the error. -/
def DhtSensor.read (s : DhtSensor) (env : ReadEnv) (fuel : ℕ) :
    Option (DhtResult × DhtSensor) :=
  if env.tCacheCheck - s.last_read < 1250 then
    some (.ok ⟨s.dht_type, s.value⟩, s)
  else
    match s.read_raw env fuel with
    | none => none
    | some (.ok v, s1) => some (.ok v, s1)
    | some (.error e, s1) =>
      if env.tErr - s1.last_read ≤ 5 * 1000 then
        some (.ok ⟨s1.dht_type, s1.value⟩, s1)
      else
        some (.error e, s1)

/-- The retry loop of `DhtSensor::read_until` (lines 125-141), one
`ReadEnv` per attempt.  `res` is the accumulated last error (initially
the generic `Other` error of line 125) and `sleeps` counts executed
`thread::sleep(150 ms)` calls: the source sleeps only when the error
kind is `TimedOut` and the attempt is not the last (`i < max_attempts -
1`, i.e. `rest ≠ []`).  Returns the result, final state and sleep
count. -/
def readUntilLoop (fuel : ℕ) :
    DhtSensor → List ReadEnv → DhtResult → ℕ → Option (DhtResult × DhtSensor × ℕ)
  | s, [], res, sleeps => some (res, s, sleeps)
  | s, env :: rest, _, sleeps =>
    match s.read env fuel with
    | none => none
    | some (.ok v, s1) => some (.ok v, s1, sleeps)
    | some (.error e, s1) =>
      readUntilLoop fuel s1 rest (.error e)
        (if e = .TimedOut ∧ rest.isEmpty = false then sleeps + 1 else sleeps)

/-- `DhtSensor::read_until` (lines 117-142).  `tNow` is the clock of its
own cache check: a cached value younger than `cache_sec` seconds is
returned with no attempt; otherwise one attempt is made per entry of
`envs` (the source runs `1 + attempts` iterations, so `envs` is the
environment list of those `1 + attempts` attempts). -/
def DhtSensor.read_until (s : DhtSensor) (tNow : ℤ) (cache_sec : ℕ)
    (envs : List ReadEnv) (fuel : ℕ) : Option (DhtResult × DhtSensor × ℕ) :=
  if tNow - s.last_read < (cache_sec : ℤ) * 1000 then
    some (.ok ⟨s.dht_type, s.value⟩, s, 0)
  else
    readUntilLoop fuel s envs (.error .Other) 0

/-- A data line that stays low for the whole transaction: the sensor
never answers, so the capture loop sticks in bucket 1 (response low)
until the 10 ms deadline fires at sample 7000. -/
def lineLow : ℕ → Bool := fun _ => false

/-- A data line that alternates every sample: bucket 0 gets one count
and every later sample mismatches its bucket's parity, so all 83 buckets
are traversed in 84 samples and every bit decodes to 0. -/
def lineAlt : ℕ → Bool := fun n => n % 2 = 0

/-- A data line producing a complete 83-bucket capture in which bucket
18 (the high phase of bit 7) counts 2 against a low phase of 1 and every
other bit's phases count 1 and 1: decodes to `[1,0,0,0,0]`, whose
checksum fails (byte 4 is 0, the sum is 1). -/
def lineBadChk : ℕ → Bool := fun n =>
  if n = 0 then true
  else if n ≤ 36 then decide ((n + 1) / 2 % 2 = 0)
  else if n = 37 then true
  else if n ≤ 165 then decide (n / 2 % 2 = 0)
  else false

/-- Like `lineBadChk` but bucket 82 (the high phase of bit 39) also
counts 2: decodes to `[1,0,0,0,1]`, whose checksum is valid. -/
def lineOkOne : ℕ → Bool := fun n =>
  if n = 0 then true
  else if n ≤ 36 then decide ((n + 1) / 2 % 2 = 0)
  else if n = 37 then true
  else if n ≤ 165 then decide (n / 2 % 2 = 0)
  else if n = 166 then true
  else false

/-- A data line that produces four real transitions (buckets 0-3 count
one each) and then sticks high: the capture loop stalls in bucket 4
until the deadline fires at sample 7000, and the partial buffer decodes
to `[128,0,0,0,0]`, which fails the checksum. -/
def lineTmoBad : ℕ → Bool := fun n =>
  decide (n = 0 ∨ (3 ≤ n ∧ n ≤ 4) ∨ 7 ≤ n)

/-- A wall clock that is already beyond any deadline whenever the
capture loop checks it. -/
def lateClock : ℕ → ℤ := fun _ => 1000000

/-- Environment builder for the concrete transactions used below:
`tStart = 0` (so the capture deadline is the instant 10) and the clock
at every deadline check is `lateClock` (already past the deadline — the
check only ever fires at sample 7000, which completed captures never
reach). -/
def mkEnv (line : ℕ → Bool) (tCacheCheck tAccept tErr : ℤ) : ReadEnv :=
  ⟨tCacheCheck, 0, lateClock, tAccept, tErr, line⟩

/-- `getD i 0` after `set i a` inside the list yields `a`. -/
theorem getD_set_self : ∀ (l : List ℕ) (i a : ℕ), i < l.length →
    (l.set i a).getD i 0 = a
  | [], i, _, h => absurd h (by simp)
  | _ :: _, 0, _, _ => rfl
  | _ :: t, i + 1, a, h => getD_set_self t i a (by simpa using h)

/-- Overwriting the same index twice keeps only the second write. -/
theorem set_set_self : ∀ (l : List ℕ) (i a b : ℕ),
    (l.set i a).set i b = l.set i b
  | [], _, _, _ => rfl
  | _ :: _, 0, _, _ => rfl
  | c :: t, i + 1, a, b => by
      simp only [List.set]
      exact congrArg (c :: ·) (set_set_self t i a b)

/-- A deadline check whose sample count is not a multiple of 7000 never
fires, whatever the clock says. -/
theorem deadline_silent {x : ℕ} (h : x % 7000 ≠ 0) {p : Prop} :
    ¬(x % 7000 = 0 ∧ p) :=
  fun hc => h hc.1

/-- One unfolding of `captureLoop` when fuel remains. -/
theorem captureLoop_succ (samples : ℕ → Bool) (times : ℕ → ℤ) (limit : ℤ)
    (fuel i x : ℕ) (cycles : List ℕ) :
    captureLoop samples times limit (fuel + 1) i x cycles =
      if i < 83 then
        let v := samples x
        let next :=
          if (decide (i % 2 = 0)) = v then (i, cycles.set i (cycles.getD i 0 + 1))
          else (i + 1, cycles)
        if (x + 1) % 7000 = 0 ∧ times (x + 1) > limit then
          some (next.2, true)
        else
          captureLoop samples times limit fuel next.1 (x + 1) next.2
      else
        some (cycles, false) := rfl

/-- One capture-loop iteration in which the sampled level matches the
expected parity of the current bucket and the deadline check does not
fire: the bucket count is incremented. -/
theorem captureLoop_count (samples : ℕ → Bool) (times : ℕ → ℤ) (limit : ℤ)
    (fuel i x : ℕ) (cycles : List ℕ) (hi : i < 83)
    (hv : samples x = decide (i % 2 = 0))
    (hc : ¬((x + 1) % 7000 = 0 ∧ times (x + 1) > limit)) :
    captureLoop samples times limit (fuel + 1) i x cycles =
      captureLoop samples times limit fuel i (x + 1)
        (cycles.set i (cycles.getD i 0 + 1)) := by
  rw [captureLoop_succ, if_pos hi]
  dsimp only
  rw [hv]
  simp only [eq_self_iff_true, if_true]
  rw [if_neg hc]

/-- One capture-loop iteration in which the sampled level does not match
the expected parity and the deadline check does not fire: the loop
advances to the next bucket without counting the sample. -/
theorem captureLoop_advance (samples : ℕ → Bool) (times : ℕ → ℤ) (limit : ℤ)
    (fuel i x : ℕ) (cycles : List ℕ) (hi : i < 83)
    (hv : samples x = !decide (i % 2 = 0))
    (hc : ¬((x + 1) % 7000 = 0 ∧ times (x + 1) > limit)) :
    captureLoop samples times limit (fuel + 1) i x cycles =
      captureLoop samples times limit fuel (i + 1) (x + 1) cycles := by
  have hne : ¬((decide (i % 2 = 0)) = samples x) := by
    rw [hv]; cases decide (i % 2 = 0) <;> simp
  rw [captureLoop_succ, if_pos hi]
  dsimp only
  rw [if_neg hne]
  rw [if_neg hc]

/-- If from sample counter `x < 7000` onward the line is stuck at the
parity of the current bucket `i`, the loop counts that bucket until the
7000th sample, where the deadline check fires (`limit < times 7000`) and
the loop exits with the timeout flag set. -/
theorem captureLoop_stall (samples : ℕ → Bool) (times : ℕ → ℤ) (limit : ℤ)
    (i : ℕ) (hi : i < 83) :
    ∀ (fuel x : ℕ) (cycles : List ℕ), cycles.length = 83 →
      (∀ n, x ≤ n → samples n = decide (i % 2 = 0)) →
      x < 7000 → 7000 - x ≤ fuel → limit < times 7000 →
      captureLoop samples times limit fuel i x cycles =
        some (cycles.set i (cycles.getD i 0 + (7000 - x)), true) := by
  intro fuel
  induction fuel with
  | zero => intro x cycles _ _ hx hf _; omega
  | succ fuel ih =>
    intro x cycles hlen hs hx hf ht
    by_cases hlast : x = 6999
    · subst hlast
      have hfire : (6999 + 1) % 7000 = 0 ∧ times (6999 + 1) > limit := by
        exact ⟨by norm_num, by simpa using ht⟩
      rw [captureLoop_succ, if_pos hi]
      dsimp only
      rw [hs 6999 le_rfl, if_pos hfire]
      simp only [eq_self_iff_true, if_true]
    · have hstep := captureLoop_count samples times limit fuel i x cycles hi
        (hs x le_rfl)
        (deadline_silent (by omega))
      rw [hstep]
      rw [ih (x + 1) (cycles.set i (cycles.getD i 0 + 1))
        (by simpa using hlen)
        (fun n hn => hs n (by omega)) (by omega) (by omega) ht]
      rw [getD_set_self cycles i _ (by omega), set_set_self]
      have harith : cycles.getD i 0 + 1 + (7000 - (x + 1)) =
          cycles.getD i 0 + (7000 - x) := by omega
      rw [harith]

/-- Cycle counts left by a `lineLow` capture: the first sample mismatches
bucket 0, then bucket 1 counts the remaining 6999 samples up to the
deadline check. -/
def cyLow : List ℕ := [0, 6999] ++ List.replicate 81 0

/-- Cycle counts left by a `lineTmoBad` capture: buckets 0-3 count one
sample each, bucket 4 counts the 6992 remaining samples up to the
deadline check. -/
def cyTmoBad : List ℕ := [1, 1, 1, 1, 6992] ++ List.replicate 78 0

/-- Cycle counts of a completed `lineAlt` capture: bucket 0 counts one
sample, every other sample advances a bucket. -/
def cyAlt : List ℕ := [1] ++ List.replicate 82 0

/-- Cycle counts of a completed `lineBadChk` capture. -/
def cyBadChk : List ℕ := (List.replicate 83 1).set 18 2

/-- Cycle counts of a completed `lineOkOne` capture. -/
def cyOkOne : List ℕ := ((List.replicate 83 1).set 18 2).set 82 2

/-- A `lineLow` transaction: the capture loop exceeds the deadline with
the timeout flag set, having only counted bucket 1. -/
theorem capture_lineLow (tc ta te : ℤ) (fuel : ℕ) (hf : 7000 ≤ fuel) :
    capture (mkEnv lineLow tc ta te) fuel = some (cyLow, true) := by
  obtain ⟨f, rfl⟩ : ∃ f, fuel = f + 6999 + 1 := ⟨fuel - 7000, by omega⟩
  show captureLoop lineLow lateClock (0 + 10) (f + 6999 + 1) 0 0 (List.replicate 83 0) = _
  rw [captureLoop_advance lineLow lateClock (0 + 10) (f + 6999) 0 0
    (List.replicate 83 0) (by norm_num) (by decide) (deadline_silent (by norm_num))]
  rw [captureLoop_stall lineLow lateClock (0 + 10) 1 (by norm_num) (f + 6999) 1
    (List.replicate 83 0) (by simp) (fun n _ => rfl) (by norm_num) (by omega) (by decide)]
  decide

/-- A `lineTmoBad` transaction: four transitions are captured, then the
loop stalls in bucket 4 until the deadline fires with the timeout flag
set. -/
theorem capture_lineTmoBad (tc ta te : ℤ) (fuel : ℕ) (hf : 7000 ≤ fuel) :
    capture (mkEnv lineTmoBad tc ta te) fuel = some (cyTmoBad, true) := by
  obtain ⟨f, rfl⟩ : ∃ f, fuel = f + 7000 := ⟨fuel - 7000, by omega⟩
  show captureLoop lineTmoBad lateClock (0 + 10) (f + 7000) 0 0 (List.replicate 83 0) = _
  rw [show f + 7000 = f + 6999 + 1 from by omega,
    captureLoop_count lineTmoBad lateClock (0 + 10) (f + 6999) 0 0 _
      (by norm_num) (by decide) (deadline_silent (by norm_num))]
  rw [show f + 6999 = f + 6998 + 1 from by omega,
    captureLoop_advance lineTmoBad lateClock (0 + 10) (f + 6998) 0 1 _
      (by norm_num) (by decide) (deadline_silent (by norm_num))]
  rw [show f + 6998 = f + 6997 + 1 from by omega,
    captureLoop_count lineTmoBad lateClock (0 + 10) (f + 6997) 1 2 _
      (by norm_num) (by decide) (deadline_silent (by norm_num))]
  rw [show f + 6997 = f + 6996 + 1 from by omega,
    captureLoop_advance lineTmoBad lateClock (0 + 10) (f + 6996) 1 3 _
      (by norm_num) (by decide) (deadline_silent (by norm_num))]
  rw [show f + 6996 = f + 6995 + 1 from by omega,
    captureLoop_count lineTmoBad lateClock (0 + 10) (f + 6995) 2 4 _
      (by norm_num) (by decide) (deadline_silent (by norm_num))]
  rw [show f + 6995 = f + 6994 + 1 from by omega,
    captureLoop_advance lineTmoBad lateClock (0 + 10) (f + 6994) 2 5 _
      (by norm_num) (by decide) (deadline_silent (by norm_num))]
  rw [show f + 6994 = f + 6993 + 1 from by omega,
    captureLoop_count lineTmoBad lateClock (0 + 10) (f + 6993) 3 6 _
      (by norm_num) (by decide) (deadline_silent (by norm_num))]
  rw [show f + 6993 = f + 6992 + 1 from by omega,
    captureLoop_advance lineTmoBad lateClock (0 + 10) (f + 6992) 3 7 _
      (by norm_num) (by decide) (deadline_silent (by norm_num))]
  rw [show f + 6992 = f + 6991 + 1 from by omega,
    captureLoop_count lineTmoBad lateClock (0 + 10) (f + 6991) 4 8 _
      (by norm_num) (by decide) (deadline_silent (by norm_num))]
  rw [captureLoop_stall lineTmoBad lateClock (0 + 10) 4 (by norm_num) (f + 6991) 9 _
    (by decide)
    (fun n hn => by
      show lineTmoBad n = true
      simp only [lineTmoBad, decide_eq_true_eq]
      omega)
    (by norm_num) (by omega) (by decide)]
  decide

/-- A `lineAlt` transaction completes all 83 buckets in 84 samples. -/
theorem capture_lineAlt (tc ta te : ℤ) :
    capture (mkEnv lineAlt tc ta te) 7100 = some (cyAlt, false) := by
  show captureLoop lineAlt lateClock (0 + 10) 7100 0 0 (List.replicate 83 0) = _
  decide

/-- A `lineBadChk` transaction completes all 83 buckets. -/
theorem capture_lineBadChk (tc ta te : ℤ) :
    capture (mkEnv lineBadChk tc ta te) 7100 = some (cyBadChk, false) := by
  show captureLoop lineBadChk lateClock (0 + 10) 7100 0 0 (List.replicate 83 0) = _
  set_option maxRecDepth 40000 in decide

/-- A `lineOkOne` transaction completes all 83 buckets. -/
theorem capture_lineOkOne (tc ta te : ℤ) :
    capture (mkEnv lineOkOne tc ta te) 7100 = some (cyOkOne, false) := by
  show captureLoop lineOkOne lateClock (0 + 10) 7100 0 0 (List.replicate 83 0) = _
  set_option maxRecDepth 40000 in decide

/-- `read_raw` on the dead-low line: although the capture timed out, the
partial buffer decodes to the all-zero payload, the checksum `0 == 0`
passes, and the transaction is accepted — the payload is returned and
promoted to the sensor state. -/
theorem read_raw_lineLow (s : DhtSensor) (tc ta te : ℤ) (fuel : ℕ)
    (hf : 7000 ≤ fuel) :
    s.read_raw (mkEnv lineLow tc ta te) fuel =
      some (.ok ⟨s.dht_type, [0, 0, 0, 0, 0]⟩,
        ⟨s.dht_type, ta, [0, 0, 0, 0, 0]⟩) := by
  unfold DhtSensor.read_raw
  rw [capture_lineLow tc ta te fuel hf]
  dsimp only
  rw [show decodeData cyLow = [0, 0, 0, 0, 0] from by decide]
  rw [if_pos (show checksumValid [0, 0, 0, 0, 0] = true from by decide)]
  rfl

/-- `read_raw` on the `lineTmoBad` line: the capture timed out, the
partial buffer decodes to `[128,0,0,0,0]`, the checksum fails, and the
transaction is rejected as `InvalidData` — not as `TimedOut`. -/
theorem read_raw_lineTmoBad (s : DhtSensor) (tc ta te : ℤ) (fuel : ℕ)
    (hf : 7000 ≤ fuel) :
    s.read_raw (mkEnv lineTmoBad tc ta te) fuel =
      some (.error .InvalidData, s) := by
  unfold DhtSensor.read_raw
  rw [capture_lineTmoBad tc ta te fuel hf]
  dsimp only
  rw [show decodeData cyTmoBad = [128, 0, 0, 0, 0] from by decide]
  rw [if_neg (show ¬checksumValid [128, 0, 0, 0, 0] = true from by decide)]

/-- `read_raw` on the `lineAlt` line: a completed capture whose bits all
decode to 0; the checksum passes and the all-zero payload is accepted. -/
theorem read_raw_lineAlt (s : DhtSensor) (tc ta te : ℤ) :
    s.read_raw (mkEnv lineAlt tc ta te) 7100 =
      some (.ok ⟨s.dht_type, [0, 0, 0, 0, 0]⟩,
        ⟨s.dht_type, ta, [0, 0, 0, 0, 0]⟩) := by
  unfold DhtSensor.read_raw
  rw [capture_lineAlt tc ta te]
  dsimp only
  rw [show decodeData cyAlt = [0, 0, 0, 0, 0] from by decide]
  rw [if_pos (show checksumValid [0, 0, 0, 0, 0] = true from by decide)]
  rfl

/-- `read_raw` on the `lineBadChk` line: a completed capture decoding to
`[1,0,0,0,0]`, whose checksum fails; rejected as `InvalidData` with the
state untouched. -/
theorem read_raw_lineBadChk (s : DhtSensor) (tc ta te : ℤ) :
    s.read_raw (mkEnv lineBadChk tc ta te) 7100 =
      some (.error .InvalidData, s) := by
  unfold DhtSensor.read_raw
  rw [capture_lineBadChk tc ta te]
  dsimp only
  rw [show decodeData cyBadChk = [1, 0, 0, 0, 0] from by decide]
  rw [if_neg (show ¬checksumValid [1, 0, 0, 0, 0] = true from by decide)]

/-- `read_raw` on the `lineOkOne` line: a completed capture decoding to
`[1,0,0,0,1]`, whose checksum is valid; accepted and promoted. -/
theorem read_raw_lineOkOne (s : DhtSensor) (tc ta te : ℤ) :
    s.read_raw (mkEnv lineOkOne tc ta te) 7100 =
      some (.ok ⟨s.dht_type, [1, 0, 0, 0, 1]⟩,
        ⟨s.dht_type, ta, [1, 0, 0, 0, 1]⟩) := by
  unfold DhtSensor.read_raw
  rw [capture_lineOkOne tc ta te]
  dsimp only
  rw [show decodeData cyOkOne = [1, 0, 0, 0, 1] from by decide]
  rw [if_pos (show checksumValid [1, 0, 0, 0, 1] = true from by decide)]
  rfl

/-- Exhaustive description of `read_raw`: whenever it returns, the
capture ran, and the result is the accepted decoded payload with the
atomically updated state pair when the checksum holds, or the
`InvalidData` error with the state untouched when it does not. -/
theorem read_raw_cases (s : DhtSensor) (env : ReadEnv) (fuel : ℕ)
    (r : DhtResult) (s1 : DhtSensor)
    (h : s.read_raw env fuel = some (r, s1)) :
    ∃ cy fl, capture env fuel = some (cy, fl) ∧
      ((checksumValid (decodeData cy) = true ∧
          r = .ok ⟨s.dht_type, decodeData cy⟩ ∧
          s1 = ⟨s.dht_type, env.tAccept, decodeData cy⟩) ∨
        (checksumValid (decodeData cy) = false ∧
          r = .error .InvalidData ∧ s1 = s)) := by
  unfold DhtSensor.read_raw at h
  cases hcap : capture env fuel with
  | none => rw [hcap] at h; exact absurd h (by simp)
  | some p =>
    obtain ⟨cy, fl⟩ := p
    rw [hcap] at h
    dsimp only at h
    by_cases hck : checksumValid (decodeData cy) = true
    · rw [if_pos hck] at h
      have h' := Option.some.inj h
      rw [Prod.mk.injEq] at h'
      exact ⟨cy, fl, rfl, .inl ⟨hck, h'.1.symm, h'.2.symm⟩⟩
    · rw [if_neg hck] at h
      have h' := Option.some.inj h
      rw [Prod.mk.injEq] at h'
      exact ⟨cy, fl, rfl, .inr ⟨by simpa using hck, h'.1.symm, h'.2.symm⟩⟩

/-- Exhaustive description of `read`'s effect on the sensor state: the
state is unchanged, or the capture of this transaction was
checksum-valid and both fields were updated together. -/
theorem read_cases (s : DhtSensor) (env : ReadEnv) (fuel : ℕ)
    (r : DhtResult) (s1 : DhtSensor)
    (h : s.read env fuel = some (r, s1)) :
    s1 = s ∨ ∃ cy fl, capture env fuel = some (cy, fl) ∧
      checksumValid (decodeData cy) = true ∧
      s1 = ⟨s.dht_type, env.tAccept, decodeData cy⟩ := by
  unfold DhtSensor.read at h
  by_cases hc : env.tCacheCheck - s.last_read < 1250
  · rw [if_pos hc] at h
    have h' := Option.some.inj h
    rw [Prod.mk.injEq] at h'
    exact .inl h'.2.symm
  · rw [if_neg hc] at h
    cases hrr : s.read_raw env fuel with
    | none => rw [hrr] at h; exact absurd h (by simp)
    | some p =>
      obtain ⟨r', s'⟩ := p
      rw [hrr] at h
      obtain ⟨cy, fl, hcap, hcase⟩ := read_raw_cases s env fuel r' s' hrr
      cases r' with
      | ok v =>
        dsimp only at h
        have h' := Option.some.inj h
        rw [Prod.mk.injEq] at h'
        rcases hcase with ⟨hck, _, hs'⟩ | ⟨_, hbad, _⟩
        · exact .inr ⟨cy, fl, hcap, hck, h'.2.symm.trans hs'⟩
        · exact absurd hbad (by simp)
      | error e =>
        dsimp only at h
        rcases hcase with ⟨_, hbad, _⟩ | ⟨_, _, hs'⟩
        · exact absurd hbad (by simp)
        · by_cases hwin : env.tErr - s'.last_read ≤ 5 * 1000
          · rw [if_pos hwin] at h
            have h' := Option.some.inj h
            rw [Prod.mk.injEq] at h'
            exact .inl (h'.2.symm.trans hs')
          · rw [if_neg hwin] at h
            have h' := Option.some.inj h
            rw [Prod.mk.injEq] at h'
            exact .inl (h'.2.symm.trans hs')

/-- A `read` that surfaces an error leaves the state untouched, and the
error kind is always `InvalidData` (checksum failure): the timeout error
recorded by the capture loop is swallowed by the commented-out block of
`read_raw`, so no `TimedOut` error can ever surface. -/
theorem read_error_cases (s : DhtSensor) (env : ReadEnv) (fuel : ℕ)
    (e : IoErrorKind) (s1 : DhtSensor)
    (h : s.read env fuel = some (.error e, s1)) :
    s1 = s ∧ e = .InvalidData := by
  unfold DhtSensor.read at h
  by_cases hc : env.tCacheCheck - s.last_read < 1250
  · rw [if_pos hc] at h
    exact absurd (Option.some.inj h) (by simp)
  · rw [if_neg hc] at h
    cases hrr : s.read_raw env fuel with
    | none => rw [hrr] at h; exact absurd h (by simp)
    | some p =>
      obtain ⟨r', s'⟩ := p
      rw [hrr] at h
      obtain ⟨cy, fl, hcap, hcase⟩ := read_raw_cases s env fuel r' s' hrr
      cases r' with
      | ok v => exact absurd (Option.some.inj h) (by simp)
      | error e' =>
        dsimp only at h
        rcases hcase with ⟨_, hbad, _⟩ | ⟨_, he', hs'⟩
        · exact absurd hbad (by simp)
        · by_cases hwin : env.tErr - s'.last_read ≤ 5 * 1000
          · rw [if_pos hwin] at h
            exact absurd (Option.some.inj h) (by simp)
          · rw [if_neg hwin] at h
            have h' := Option.some.inj h
            rw [Prod.mk.injEq] at h'
            have he : e = e' := by
              have := h'.1
              simp only [DhtResult.error.injEq] at this
              exact this.symm
            refine ⟨h'.2.symm.trans hs', ?_⟩
            rw [he]
            simpa using he'

/-- The sleep counter of `readUntilLoop` never moves: the only error
kind a `read` can surface is `InvalidData`, so the `TimedOut` guard of
the 150 ms backoff is never satisfied. -/
theorem readUntilLoop_sleeps (fuel : ℕ) :
    ∀ (envs : List ReadEnv) (s : DhtSensor) (res : DhtResult) (n : ℕ)
      (r : DhtResult) (s1 : DhtSensor) (sl : ℕ),
      readUntilLoop fuel s envs res n = some (r, s1, sl) → sl = n := by
  intro envs
  induction envs with
  | nil =>
    intro s res n r s1 sl h
    unfold readUntilLoop at h
    have h' := Option.some.inj h
    rw [Prod.mk.injEq, Prod.mk.injEq] at h'
    exact h'.2.2.symm
  | cons env rest ih =>
    intro s res n r s1 sl h
    unfold readUntilLoop at h
    cases hr : s.read env fuel with
    | none => rw [hr] at h; exact absurd h (by simp)
    | some p =>
      obtain ⟨r', s'⟩ := p
      rw [hr] at h
      cases r' with
      | ok v =>
        dsimp only at h
        have h' := Option.some.inj h
        rw [Prod.mk.injEq, Prod.mk.injEq] at h'
        exact h'.2.2.symm
      | error e =>
        dsimp only at h
        have he : e = .InvalidData := (read_error_cases s env fuel e s' hr).2
        rw [if_neg (by simp [he])] at h
        exact ih s' (.error e) n r s1 sl h

/-- Exhaustive description of the retry loop's effect on the sensor
state: either it is unchanged, or some attempt's capture was
checksum-valid and the state pair was updated atomically from it. -/
theorem readUntilLoop_state (fuel : ℕ) :
    ∀ (envs : List ReadEnv) (s : DhtSensor) (res : DhtResult) (n : ℕ)
      (r : DhtResult) (s1 : DhtSensor) (sl : ℕ),
      readUntilLoop fuel s envs res n = some (r, s1, sl) →
      s1 = s ∨ ∃ env ∈ envs, ∃ cy fl, capture env fuel = some (cy, fl) ∧
        checksumValid (decodeData cy) = true ∧
        s1 = ⟨s.dht_type, env.tAccept, decodeData cy⟩ := by
  intro envs
  induction envs with
  | nil =>
    intro s res n r s1 sl h
    unfold readUntilLoop at h
    have h' := Option.some.inj h
    rw [Prod.mk.injEq, Prod.mk.injEq] at h'
    exact .inl h'.2.1.symm
  | cons env rest ih =>
    intro s res n r s1 sl h
    unfold readUntilLoop at h
    cases hr : s.read env fuel with
    | none => rw [hr] at h; exact absurd h (by simp)
    | some p =>
      obtain ⟨r', s'⟩ := p
      rw [hr] at h
      have hstep := read_cases s env fuel r' s' hr
      cases r' with
      | ok v =>
        dsimp only at h
        have h' := Option.some.inj h
        rw [Prod.mk.injEq, Prod.mk.injEq] at h'
        rcases hstep with hss | ⟨cy, fl, hcap, hck, hupd⟩
        · exact .inl ((h'.2.1.symm.trans hss))
        · exact .inr ⟨env, by simp, cy, fl, hcap, hck, h'.2.1.symm.trans hupd⟩
      | error e =>
        dsimp only at h
        have hss : s' = s := (read_error_cases s env fuel e s' hr).1
        rcases ih s' (.error e)
            (if e = .TimedOut ∧ rest.isEmpty = false then n + 1 else n)
            r s1 sl h with h1 | ⟨env', hmem, cy, fl, hcap, hck, hupd⟩
        · exact .inl (h1.trans hss)
        · exact .inr ⟨env', by simp [hmem], cy, fl, hcap, hck, by rw [hupd, hss]⟩

/-- C1: for DHT21/DHT22 payloads the claim says `humidity()` returns
`(data[0]*256 + data[1])/10` and `temperature()` returns the
sign-magnitude decode of bytes 2-3, with `data[2]=0x81, data[3]=0x05`
giving -26.1 C.  The code disagrees: the `DHT11` match arm is an
unqualified binding pattern that captures every variant, so a DHT22
sensor decodes `[2,140,129,5,20]` (checksum-valid) to temperature 129
and humidity 2 instead of -26.1 and 65.2. -/
theorem C1_dht22_decode_divergence :
    checksumValid [2, 140, 129, 5, 20] = true ∧
    DhtValue.temperature ⟨.DHT22, [2, 140, 129, 5, 20]⟩ = 129 ∧
    DhtValue.humidity ⟨.DHT22, [2, 140, 129, 5, 20]⟩ = 2 ∧
    dht22TemperatureRule [2, 140, 129, 5, 20] = -261 / 10 ∧
    dht22HumidityRule [2, 140, 129, 5, 20] = 652 / 10 ∧
    DhtValue.temperature ⟨.DHT22, [2, 140, 129, 5, 20]⟩ ≠
      dht22TemperatureRule [2, 140, 129, 5, 20] ∧
    DhtValue.humidity ⟨.DHT22, [2, 140, 129, 5, 20]⟩ ≠
      dht22HumidityRule [2, 140, 129, 5, 20] := by
  refine ⟨by decide, ?_, ?_, ?_, ?_, ?_, ?_⟩ <;>
    norm_num [DhtValue.temperature, DhtValue.humidity, dht22TemperatureRule,
      dht22HumidityRule]

/-- C9: for a DHT11 sensor and any accepted payload, `humidity()` is
byte 0 and `temperature()` is byte 2, bytes 1 and 3 unused; the payload
`[45,0,23,0,68]` decodes to 45 % and 23 C. -/
theorem C9_dht11_decode :
    (∀ data : List ℕ, checksumValid data = true →
      DhtValue.humidity ⟨.DHT11, data⟩ = (data.getD 0 0 : ℚ) ∧
      DhtValue.temperature ⟨.DHT11, data⟩ = (data.getD 2 0 : ℚ)) ∧
    checksumValid [45, 0, 23, 0, 68] = true ∧
    DhtValue.humidity ⟨.DHT11, [45, 0, 23, 0, 68]⟩ = 45 ∧
    DhtValue.temperature ⟨.DHT11, [45, 0, 23, 0, 68]⟩ = 23 :=
  ⟨fun _ _ => ⟨rfl, rfl⟩, by decide, by norm_num [DhtValue.humidity],
    by norm_num [DhtValue.temperature]⟩

/-- Witness for C9 at the payload `[45,0,23,0,68]`. -/
theorem C9_dht11_decode_witness :
    checksumValid [45, 0, 23, 0, 68] = true ∧
    (DhtValue.humidity ⟨.DHT11, [45, 0, 23, 0, 68]⟩ =
        (([45, 0, 23, 0, 68] : List ℕ).getD 0 0 : ℚ) ∧
      DhtValue.temperature ⟨.DHT11, [45, 0, 23, 0, 68]⟩ =
        (([45, 0, 23, 0, 68] : List ℕ).getD 2 0 : ℚ)) :=
  ⟨by decide, C9_dht11_decode.1 [45, 0, 23, 0, 68] (by decide)⟩

/-- C10 counterexample: at 95 F and 50 % humidity `heat_index` takes the
regression branch and returns exactly 105.2157721 F, more than 5 degrees
above the 99 F the claim asserts (the NOAA table itself gives about
105 F there). -/
theorem C10_example_value_counterexample :
    heat_index (fun q => q) 95 50 true = 10521577210 / 10 ^ 8 ∧
    5 < heat_index (fun q => q) 95 50 true - 99 := by
  constructor <;> norm_num [heat_index]

/-- C10 amended: `heat_index` returns the Steadman estimate when that
estimate is at most 79 F, otherwise the Rothfusz regression with the
source's coefficients, minus the square-root correction when humidity <
13 and temperature in [80,112] F, plus the second correction when
humidity > 85 and temperature in [80,87] F; the Celsius mode converts
the input to Fahrenheit and the output back; 95 F / 50 % yields exactly
105.2157721 F (not 99 F). -/
theorem C10_heat_index_amended :
    (∀ (sq : ℚ → ℚ) (t h : ℚ), steadmanSimple t h ≤ 79 →
      heat_index sq t h true = steadmanSimple t h) ∧
    (∀ (sq : ℚ → ℚ) (t h : ℚ), 79 < steadmanSimple t h →
      ¬(h < 13 ∧ 80 ≤ t ∧ t ≤ 112) → ¬(85 < h ∧ 80 ≤ t ∧ t ≤ 87) →
      heat_index sq t h true = rothfusz t h) ∧
    (∀ (sq : ℚ → ℚ) (t h : ℚ), 79 < steadmanSimple t h →
      h < 13 → 80 ≤ t → t ≤ 112 →
      heat_index sq t h true =
        rothfusz t h - ((13 - h) * 0.25) * sq ((17 - |t - 95|) * 0.05882)) ∧
    (∀ (sq : ℚ → ℚ) (t h : ℚ), 79 < steadmanSimple t h →
      85 < h → 80 ≤ t → t ≤ 87 →
      heat_index sq t h true =
        rothfusz t h + ((h - 85) * 0.1) * ((87 - t) * 0.2)) ∧
    (∀ (sq : ℚ → ℚ) (t h : ℚ),
      heat_index sq t h false =
        (heat_index sq (t * 1.8 + 32) h true - 32) * 0.55555) ∧
    heat_index (fun q => q) 95 50 true = 10521577210 / 10 ^ 8 := by
  refine ⟨?_, ?_, ?_, ?_, ?_, ?_⟩
  · intro sq t h hle
    unfold steadmanSimple at hle
    simp only [heat_index, if_true]
    rw [if_neg (not_lt.mpr hle)]
    rfl
  · intro sq t h hgt hn1 hn2
    unfold steadmanSimple at hgt
    simp only [heat_index, if_true]
    rw [if_pos hgt, if_neg hn1, if_neg hn2]
    rfl
  · intro sq t h hgt hh ht1 ht2
    unfold steadmanSimple at hgt
    simp only [heat_index, if_true]
    rw [if_pos hgt, if_pos ⟨hh, ht1, ht2⟩]
    rfl
  · intro sq t h hgt hh ht1 ht2
    unfold steadmanSimple at hgt
    simp only [heat_index, if_true]
    rw [if_pos hgt, if_neg (by rintro ⟨h13, -, -⟩; linarith),
      if_pos ⟨hh, ht1, ht2⟩]
    rfl
  · intro sq t h
    rfl
  · norm_num [heat_index]

/-- Witness for C10 amended, exercising every branch: the linear branch
at 68 F / 0 %, the plain regression at 95 F / 50 %, the low-humidity
correction at 90 F / 10 %, the high-humidity correction at 85 F / 90 %,
and the Celsius conversion at 20 C / 50 %. -/
theorem C10_heat_index_amended_witness :
    heat_index (fun q => q) 68 0 true = steadmanSimple 68 0 ∧
    heat_index (fun q => q) 95 50 true = rothfusz 95 50 ∧
    heat_index (fun q => q) 90 10 true =
      rothfusz 90 10 -
        ((13 - 10) * 0.25) * (fun q => q) ((17 - |(90 : ℚ) - 95|) * 0.05882) ∧
    heat_index (fun q => q) 85 90 true =
      rothfusz 85 90 + ((90 - 85) * 0.1) * ((87 - 85) * 0.2) ∧
    heat_index (fun q => q) 20 50 false =
      (heat_index (fun q => q) (20 * 1.8 + 32) 50 true - 32) * 0.55555 :=
  ⟨C10_heat_index_amended.1 _ 68 0 (by norm_num [steadmanSimple]),
    C10_heat_index_amended.2.1 _ 95 50 (by norm_num [steadmanSimple])
      (by norm_num) (by norm_num),
    C10_heat_index_amended.2.2.1 _ 90 10 (by norm_num [steadmanSimple])
      (by norm_num) (by norm_num) (by norm_num),
    C10_heat_index_amended.2.2.2.1 _ 85 90 (by norm_num [steadmanSimple])
      (by norm_num) (by norm_num) (by norm_num),
    C10_heat_index_amended.2.2.2.2.1 _ 20 50⟩

/-- C2: the claim says a transaction whose capture loop exceeds the
10 ms deadline returns `TimedOut` and discards the captured bytes.  The
code disagrees: the early return on the timeout error is inside the
commented-out block of `read_raw`, so on a dead-low line (capture times
out at sample 7000 with only bucket 1 counted) the partial buffer is
decoded to `[0,0,0,0,0]`, the checksum `0 == 0` passes, and `read_raw`
returns `Ok` and promotes the bytes to the cached state. -/
theorem C2_timeout_swallowed :
    capture (mkEnv lineLow 9999 500 9999) 7100 = some (cyLow, true) ∧
    DhtSensor.read_raw ⟨.DHT22, 0, [1, 2, 3, 4, 10]⟩
        (mkEnv lineLow 9999 500 9999) 7100 =
      some (.ok ⟨.DHT22, [0, 0, 0, 0, 0]⟩, ⟨.DHT22, 500, [0, 0, 0, 0, 0]⟩) :=
  ⟨capture_lineLow 9999 500 9999 7100 (by norm_num),
    read_raw_lineLow ⟨.DHT22, 0, [1, 2, 3, 4, 10]⟩ 9999 500 9999 7100 (by norm_num)⟩

/-- C3: the claim says every `Ok` payload comes from a checksum-valid
physical transaction and no error path substitutes an all-zero reading.
The code disagrees: on a fresh sensor (no successful read ever, cache
far out of the 5 s window) whose line stays low, the capture times out,
yet `read` returns `Ok [0,0,0,0,0]` — a synthetic all-zero reading from
an aborted transaction — and promotes it to the cache. -/
theorem C3_synthetic_zero_returned :
    capture (mkEnv lineLow 0 42 0) 7100 = some (cyLow, true) ∧
    5 * 1000 < (0 : ℤ) - (DhtSensor.new_common .DHT22 0).last_read ∧
    (DhtSensor.new_common .DHT22 0).read (mkEnv lineLow 0 42 0) 7100 =
      some (.ok ⟨.DHT22, [0, 0, 0, 0, 0]⟩, ⟨.DHT22, 42, [0, 0, 0, 0, 0]⟩) := by
  refine ⟨capture_lineLow 0 42 0 7100 (by norm_num),
    by norm_num [DhtSensor.new_common], ?_⟩
  unfold DhtSensor.read
  rw [if_neg (by norm_num [DhtSensor.new_common, mkEnv])]
  rw [read_raw_lineLow _ 0 42 0 7100 (by norm_num)]
  rfl

/-- C4: for every completed capture (timeout flag clear), `read_raw`
accepts — returns `Ok` with the decoded payload and updates the state
pair — exactly when byte 4 equals the sum of bytes 0-3 modulo 256, and
on a mismatch returns the `InvalidData` checksum error with the state
untouched. -/
theorem C4_checksum_gates_acceptance :
    ∀ (s : DhtSensor) (env : ReadEnv) (fuel : ℕ) (cy : List ℕ),
      capture env fuel = some (cy, false) →
      (DhtSensor.read_raw s env fuel =
          some (.ok ⟨s.dht_type, decodeData cy⟩,
            ⟨s.dht_type, env.tAccept, decodeData cy⟩) ↔
        (decodeData cy).getD 4 0 =
          ((decodeData cy).getD 0 0 + (decodeData cy).getD 1 0 +
            (decodeData cy).getD 2 0 + (decodeData cy).getD 3 0) % 256) ∧
      ((decodeData cy).getD 4 0 ≠
          ((decodeData cy).getD 0 0 + (decodeData cy).getD 1 0 +
            (decodeData cy).getD 2 0 + (decodeData cy).getD 3 0) % 256 →
        DhtSensor.read_raw s env fuel = some (.error .InvalidData, s)) := by
  intro s env fuel cy hcap
  unfold DhtSensor.read_raw
  rw [hcap]
  dsimp only
  by_cases hck : checksumValid (decodeData cy) = true
  · have hsum := of_decide_eq_true hck
    rw [if_pos hck]
    refine ⟨⟨fun _ => hsum, fun _ => rfl⟩, fun hne => absurd hsum hne⟩
  · have hsum : ¬((decodeData cy).getD 4 0 =
        ((decodeData cy).getD 0 0 + (decodeData cy).getD 1 0 +
          (decodeData cy).getD 2 0 + (decodeData cy).getD 3 0) % 256) :=
      fun heq => hck (decide_eq_true heq)
    rw [if_neg hck]
    exact ⟨⟨fun hbad => absurd (Option.some.inj hbad) (by simp),
      fun heq => absurd heq hsum⟩, fun _ => rfl⟩

/-- Witness for C4 at the completed `lineBadChk` capture, whose decode
`[1,0,0,0,0]` fails the checksum and is rejected with the state kept. -/
theorem C4_checksum_gates_acceptance_witness :
    DhtSensor.read_raw ⟨.DHT11, 0, [9, 9, 9, 9, 9]⟩
        (mkEnv lineBadChk 0 5 0) 7100 =
      some (.error .InvalidData, ⟨.DHT11, 0, [9, 9, 9, 9, 9]⟩) :=
  (C4_checksum_gates_acceptance ⟨.DHT11, 0, [9, 9, 9, 9, 9]⟩
    (mkEnv lineBadChk 0 5 0) 7100 cyBadChk (capture_lineBadChk 0 5 0)).2
    (by decide)

/-- C5: atomic pair update.  For each of `read_raw`, `read` and
`read_until`, the returned state either equals the input state (cache
hits and every error path) or both `value` and `last_read` were
overwritten together from one checksum-valid captured payload and its
accept time. -/
theorem C5_atomic_pair_update :
    (∀ (s : DhtSensor) (env : ReadEnv) (fuel : ℕ) (r : DhtResult)
        (s1 : DhtSensor),
      DhtSensor.read_raw s env fuel = some (r, s1) →
      ∃ cy fl, capture env fuel = some (cy, fl) ∧
        ((checksumValid (decodeData cy) = true ∧
            r = .ok ⟨s.dht_type, decodeData cy⟩ ∧
            s1 = ⟨s.dht_type, env.tAccept, decodeData cy⟩) ∨
          (checksumValid (decodeData cy) = false ∧
            r = .error .InvalidData ∧ s1 = s))) ∧
    (∀ (s : DhtSensor) (env : ReadEnv) (fuel : ℕ) (r : DhtResult)
        (s1 : DhtSensor),
      DhtSensor.read s env fuel = some (r, s1) →
      s1 = s ∨ ∃ cy fl, capture env fuel = some (cy, fl) ∧
        checksumValid (decodeData cy) = true ∧
        s1 = ⟨s.dht_type, env.tAccept, decodeData cy⟩) ∧
    (∀ (s : DhtSensor) (tNow : ℤ) (cs : ℕ) (envs : List ReadEnv) (fuel : ℕ)
        (r : DhtResult) (s1 : DhtSensor) (sl : ℕ),
      DhtSensor.read_until s tNow cs envs fuel = some (r, s1, sl) →
      s1 = s ∨ ∃ env ∈ envs, ∃ cy fl, capture env fuel = some (cy, fl) ∧
        checksumValid (decodeData cy) = true ∧
        s1 = ⟨s.dht_type, env.tAccept, decodeData cy⟩) := by
  refine ⟨read_raw_cases, read_cases, ?_⟩
  intro s tNow cs envs fuel r s1 sl h
  unfold DhtSensor.read_until at h
  by_cases hc : tNow - s.last_read < (cs : ℤ) * 1000
  · rw [if_pos hc] at h
    have h' := Option.some.inj h
    rw [Prod.mk.injEq, Prod.mk.injEq] at h'
    exact .inl h'.2.1.symm
  · rw [if_neg hc] at h
    exact readUntilLoop_state fuel envs s (.error .Other) 0 r s1 sl h

/-- Witness for C5: a checksum-failing transaction leaves the state
untouched and surfaces as `InvalidData`. -/
theorem C5_atomic_pair_update_witness :
    ∃ cy fl, capture (mkEnv lineBadChk 0 7 0) 7100 = some (cy, fl) ∧
      ((checksumValid (decodeData cy) = true ∧
          DhtResult.error .InvalidData =
            .ok ⟨(DhtSensor.mk .DHT21 0 [0, 0, 0, 0, 0]).dht_type,
              decodeData cy⟩ ∧
          DhtSensor.mk .DHT21 0 [0, 0, 0, 0, 0] =
            ⟨(DhtSensor.mk .DHT21 0 [0, 0, 0, 0, 0]).dht_type,
              (mkEnv lineBadChk 0 7 0).tAccept, decodeData cy⟩) ∨
        (checksumValid (decodeData cy) = false ∧
          DhtResult.error .InvalidData = .error .InvalidData ∧
          DhtSensor.mk .DHT21 0 [0, 0, 0, 0, 0] =
            DhtSensor.mk .DHT21 0 [0, 0, 0, 0, 0])) :=
  C5_atomic_pair_update.1 ⟨.DHT21, 0, [0, 0, 0, 0, 0]⟩
    (mkEnv lineBadChk 0 7 0) 7100 (.error .InvalidData)
    ⟨.DHT21, 0, [0, 0, 0, 0, 0]⟩
    (read_raw_lineBadChk ⟨.DHT21, 0, [0, 0, 0, 0, 0]⟩ 0 7 0)

/-- C6: when the fast cache misses and the physical transaction fails,
`read` returns the previously cached payload as `Ok` when `last_read` is
at most 5 s old at the error-handling instant, and otherwise propagates
the transaction's error; in both cases the state is unchanged. -/
theorem C6_error_cache_window :
    ∀ (s : DhtSensor) (env : ReadEnv) (fuel : ℕ) (e : IoErrorKind)
      (s1 : DhtSensor),
      ¬(env.tCacheCheck - s.last_read < 1250) →
      DhtSensor.read_raw s env fuel = some (.error e, s1) →
      (env.tErr - s.last_read ≤ 5 * 1000 →
        DhtSensor.read s env fuel = some (.ok ⟨s.dht_type, s.value⟩, s)) ∧
      (5 * 1000 < env.tErr - s.last_read →
        DhtSensor.read s env fuel = some (.error e, s)) := by
  intro s env fuel e s1 hc hrr
  have hs1 : s1 = s := by
    obtain ⟨cy, fl, hcap, hcase⟩ := read_raw_cases s env fuel (.error e) s1 hrr
    rcases hcase with ⟨_, hbad, _⟩ | ⟨_, _, hss⟩
    · exact absurd hbad (by simp)
    · exact hss
  subst hs1
  constructor
  · intro hwin
    unfold DhtSensor.read
    rw [if_neg hc, hrr]
    dsimp only
    rw [if_pos hwin]
  · intro hlate
    unfold DhtSensor.read
    rw [if_neg hc, hrr]
    dsimp only
    rw [if_neg (by omega)]

/-- Witness for C6: a checksum failure 2 s after the cached success is
masked by the 5 s error cache and the cached bytes are returned. -/
theorem C6_error_cache_window_witness :
    DhtSensor.read ⟨.DHT11, 0, [9, 8, 7, 6, 30]⟩
        (mkEnv lineBadChk 2000 77 2000) 7100 =
      some (.ok ⟨.DHT11, [9, 8, 7, 6, 30]⟩, ⟨.DHT11, 0, [9, 8, 7, 6, 30]⟩) :=
  (C6_error_cache_window ⟨.DHT11, 0, [9, 8, 7, 6, 30]⟩
    (mkEnv lineBadChk 2000 77 2000) 7100 .InvalidData
    ⟨.DHT11, 0, [9, 8, 7, 6, 30]⟩ (by decide)
    (read_raw_lineBadChk ⟨.DHT11, 0, [9, 8, 7, 6, 30]⟩ 2000 77 2000)).1
    (by decide)

/-- Defining equation of `readUntilLoop` on an empty attempt list: the
accumulated result is returned. -/
theorem readUntilLoop_nil (fuel : ℕ) (s : DhtSensor) (res : DhtResult)
    (n : ℕ) : readUntilLoop fuel s [] res n = some (res, s, n) := rfl

/-- Defining equation of `readUntilLoop` on a non-empty attempt list. -/
theorem readUntilLoop_cons (fuel : ℕ) (s : DhtSensor) (env : ReadEnv)
    (rest : List ReadEnv) (res : DhtResult) (n : ℕ) :
    readUntilLoop fuel s (env :: rest) res n =
      match s.read env fuel with
      | none => none
      | some (.ok v, s1) => some (.ok v, s1, n)
      | some (.error e, s1) =>
        readUntilLoop fuel s1 rest (.error e)
          (if e = .TimedOut ∧ rest.isEmpty = false then n + 1 else n) := rfl

/-- A successful attempt ends the retry loop at once. -/
theorem readUntilLoop_ok (fuel : ℕ) (s : DhtSensor) (env : ReadEnv)
    (rest : List ReadEnv) (res : DhtResult) (n : ℕ) (v : DhtValue)
    (s1 : DhtSensor) (h : s.read env fuel = some (.ok v, s1)) :
    readUntilLoop fuel s (env :: rest) res n = some (.ok v, s1, n) := by
  rw [readUntilLoop_cons, h]

/-- A failed attempt whose error does not trigger the backoff guard
continues with the next attempt and an unchanged sleep count. -/
theorem readUntilLoop_error (fuel : ℕ) (s : DhtSensor) (env : ReadEnv)
    (rest : List ReadEnv) (res : DhtResult) (n : ℕ) (e : IoErrorKind)
    (s1 : DhtSensor) (h : s.read env fuel = some (.error e, s1))
    (hne : ¬(e = .TimedOut ∧ rest.isEmpty = false)) :
    readUntilLoop fuel s (env :: rest) res n =
      readUntilLoop fuel s1 rest (.error e) n := by
  rw [readUntilLoop_cons, h]
  dsimp only
  rw [if_neg hne]

/-- Intermediate fact for the C7 analysis: on a fresh sensor, a
transaction over `lineTmoBad` — whose capture loop exceeds the deadline —
surfaces from `read` as a plain `InvalidData` checksum error (never
`TimedOut`), with the state unchanged. -/
theorem read_fresh_lineTmoBad (d : DhtType) (ta : ℤ) :
    (DhtSensor.new_common d 0).read (mkEnv lineTmoBad 0 ta 0) 7100 =
      some (.error .InvalidData, DhtSensor.new_common d 0) := by
  unfold DhtSensor.read
  rw [if_neg (by norm_num [DhtSensor.new_common, mkEnv])]
  rw [read_raw_lineTmoBad _ 0 ta 0 7100 (by norm_num)]
  dsimp only
  rw [if_neg (by norm_num [DhtSensor.new_common, mkEnv])]

/-- C7 counterexample: two consecutive attempts whose capture loops
exceed the 10 ms deadline (`capture … = (…, true)`), followed by a
successful attempt.  The claim (with the spec's definition of timeout:
capture loop exceeded 10 ms) requires exactly two 150 ms sleeps; the
code performs zero sleeps, because the timed-out attempts surface as
`InvalidData` checksum failures rather than `TimedOut` — the timeout
error is swallowed inside `read_raw` — so the backoff branch never
runs. -/
theorem C7_backoff_counterexample :
    capture (mkEnv lineTmoBad 0 111 0) 7100 = some (cyTmoBad, true) ∧
    capture (mkEnv lineTmoBad 0 222 0) 7100 = some (cyTmoBad, true) ∧
    (DhtSensor.new_common .DHT21 0).read (mkEnv lineTmoBad 0 111 0) 7100 =
      some (.error .InvalidData, DhtSensor.new_common .DHT21 0) ∧
    (DhtSensor.new_common .DHT21 0).read_until 0 3
        [mkEnv lineTmoBad 0 111 0, mkEnv lineTmoBad 0 222 0,
          mkEnv lineAlt 0 333 0] 7100 =
      some (.ok ⟨.DHT21, [0, 0, 0, 0, 0]⟩, ⟨.DHT21, 333, [0, 0, 0, 0, 0]⟩, 0) := by
  refine ⟨capture_lineTmoBad 0 111 0 7100 (by norm_num),
    capture_lineTmoBad 0 222 0 7100 (by norm_num),
    read_fresh_lineTmoBad .DHT21 111, ?_⟩
  have hok : (DhtSensor.new_common .DHT21 0).read (mkEnv lineAlt 0 333 0) 7100 =
      some (.ok ⟨.DHT21, [0, 0, 0, 0, 0]⟩, ⟨.DHT21, 333, [0, 0, 0, 0, 0]⟩) := by
    unfold DhtSensor.read
    rw [if_neg (by norm_num [DhtSensor.new_common, mkEnv])]
    rw [read_raw_lineAlt _ 0 333 0]
    rfl
  unfold DhtSensor.read_until
  rw [if_neg (by norm_num [DhtSensor.new_common])]
  rw [readUntilLoop_error 7100 _ _ _ _ _ _ _ (read_fresh_lineTmoBad .DHT21 111)
    (by decide)]
  rw [readUntilLoop_error 7100 _ _ _ _ _ _ _ (read_fresh_lineTmoBad .DHT21 222)
    (by decide)]
  rw [readUntilLoop_ok 7100 _ _ _ _ _ _ _ hok]

/-- C7 amended: the retry policy of `read_until`, as the code actually
behaves.  (1) A cached value younger than `cache_sec` seconds is
returned at once with no attempt, whatever the attempt environments
hold.  (2) `read` can never surface a `TimedOut` error (the capture
timeout is swallowed in `read_raw`), so (3) the 150 ms backoff count of
every `read_until` call is 0.  (4) The first successful attempt is
returned immediately, consuming no further attempts and sleeping no
further; (5) a failed attempt records its error and continues with the
next environment, with the sleep count unchanged; (6) when the attempt
list is exhausted the accumulated last error is returned. -/
theorem C7_retry_policy_amended :
    (∀ (s : DhtSensor) (tNow : ℤ) (cs : ℕ) (envs : List ReadEnv) (fuel : ℕ),
      tNow - s.last_read < (cs : ℤ) * 1000 →
      DhtSensor.read_until s tNow cs envs fuel =
        some (.ok ⟨s.dht_type, s.value⟩, s, 0)) ∧
    (∀ (s : DhtSensor) (env : ReadEnv) (fuel : ℕ) (r : DhtResult)
        (s1 : DhtSensor),
      DhtSensor.read s env fuel = some (r, s1) → r ≠ .error .TimedOut) ∧
    (∀ (s : DhtSensor) (tNow : ℤ) (cs : ℕ) (envs : List ReadEnv) (fuel : ℕ)
        (r : DhtResult) (s1 : DhtSensor) (sl : ℕ),
      DhtSensor.read_until s tNow cs envs fuel = some (r, s1, sl) → sl = 0) ∧
    (∀ (s : DhtSensor) (env : ReadEnv) (rest : List ReadEnv) (fuel : ℕ)
        (v : DhtValue) (s1 : DhtSensor) (res : DhtResult) (n : ℕ),
      DhtSensor.read s env fuel = some (.ok v, s1) →
      readUntilLoop fuel s (env :: rest) res n = some (.ok v, s1, n)) ∧
    (∀ (s : DhtSensor) (env : ReadEnv) (rest : List ReadEnv) (fuel : ℕ)
        (e : IoErrorKind) (s1 : DhtSensor) (res : DhtResult) (n : ℕ),
      DhtSensor.read s env fuel = some (.error e, s1) →
      readUntilLoop fuel s (env :: rest) res n =
        readUntilLoop fuel s1 rest (.error e) n) ∧
    (∀ (s : DhtSensor) (fuel : ℕ) (res : DhtResult) (n : ℕ),
      readUntilLoop fuel s [] res n = some (res, s, n)) := by
  refine ⟨?_, ?_, ?_, ?_, ?_, ?_⟩
  · intro s tNow cs envs fuel hc
    unfold DhtSensor.read_until
    rw [if_pos hc]
  · intro s env fuel r s1 h hr
    subst hr
    exact absurd (read_error_cases s env fuel .TimedOut s1 h).2 (by simp)
  · intro s tNow cs envs fuel r s1 sl h
    unfold DhtSensor.read_until at h
    by_cases hc : tNow - s.last_read < (cs : ℤ) * 1000
    · rw [if_pos hc] at h
      have h' := Option.some.inj h
      rw [Prod.mk.injEq, Prod.mk.injEq] at h'
      exact h'.2.2.symm
    · rw [if_neg hc] at h
      exact readUntilLoop_sleeps fuel envs s (.error .Other) 0 r s1 sl h
  · intro s env rest fuel v s1 res n h
    exact readUntilLoop_ok fuel s env rest res n v s1 h
  · intro s env rest fuel e s1 res n h
    have he : e = .InvalidData := (read_error_cases s env fuel e s1 h).2
    exact readUntilLoop_error fuel s env rest res n e s1 h (by simp [he])
  · intro s fuel res n
    rfl

/-- Witness for C7 amended: a cache hit returns immediately with zero
sleeps, and an empty attempt list returns the accumulated error. -/
theorem C7_retry_policy_amended_witness :
    DhtSensor.read_until ⟨.DHT11, 0, [4, 0, 4, 0, 8]⟩ 500 2 [] 9 =
      some (.ok ⟨.DHT11, [4, 0, 4, 0, 8]⟩, ⟨.DHT11, 0, [4, 0, 4, 0, 8]⟩, 0) ∧
    readUntilLoop 9 ⟨.DHT11, 0, [4, 0, 4, 0, 8]⟩ [] (.error .Other) 0 =
      some (.error .Other, ⟨.DHT11, 0, [4, 0, 4, 0, 8]⟩, 0) :=
  ⟨C7_retry_policy_amended.1 ⟨.DHT11, 0, [4, 0, 4, 0, 8]⟩ 500 2 [] 9
      (by norm_num),
    C7_retry_policy_amended.2.2.2.2.2 ⟨.DHT11, 0, [4, 0, 4, 0, 8]⟩ 9
      (.error .Other) 0⟩

/-- C8 counterexample: two `read()` calls 100 ms apart on the same
sensor over the same line, with no intervening state mutation.  The
sensor's cached value is 1200 ms old at the first call (fast-cache hit,
payload `[0,0,0,0,0]`, state untouched) and 1300 ms old at the second,
which therefore runs a physical transaction and returns the different
payload `[1,0,0,0,1]` — refuting bit-identical results and the absence
of a second transaction for calls merely within 1250 ms of each other. -/
theorem C8_idempotence_counterexample :
    DhtSensor.read ⟨.DHT11, 0, [0, 0, 0, 0, 0]⟩
        (mkEnv lineOkOne 1200 1234 1200) 7100 =
      some (.ok ⟨.DHT11, [0, 0, 0, 0, 0]⟩, ⟨.DHT11, 0, [0, 0, 0, 0, 0]⟩) ∧
    DhtSensor.read ⟨.DHT11, 0, [0, 0, 0, 0, 0]⟩
        (mkEnv lineOkOne 1300 1300 1300) 7100 =
      some (.ok ⟨.DHT11, [1, 0, 0, 0, 1]⟩, ⟨.DHT11, 1300, [1, 0, 0, 0, 1]⟩) ∧
    (1300 : ℤ) - 1200 < 1250 ∧
    DhtValue.mk .DHT11 [1, 0, 0, 0, 1] ≠ DhtValue.mk .DHT11 [0, 0, 0, 0, 0] := by
  refine ⟨?_, ?_, by norm_num, by decide⟩
  · unfold DhtSensor.read
    rw [if_pos (by norm_num [mkEnv])]
  · unfold DhtSensor.read
    rw [if_neg (by norm_num [mkEnv])]
    rw [read_raw_lineOkOne _ 1300 1300 1300]

/-- C8 amended: the fast cache is idempotent relative to the stored
success timestamp: any `read()` call whose cache-check instant is within
1250 ms of `last_read` returns the cached payload unchanged and leaves
the state untouched, for every line condition and fuel — so two such
calls return bit-identical payloads and neither touches the hardware. -/
theorem C8_fast_cache_amended :
    ∀ (s : DhtSensor) (env1 env2 : ReadEnv) (fuel1 fuel2 : ℕ),
      env1.tCacheCheck - s.last_read < 1250 →
      env2.tCacheCheck - s.last_read < 1250 →
      DhtSensor.read s env1 fuel1 = some (.ok ⟨s.dht_type, s.value⟩, s) ∧
      DhtSensor.read s env2 fuel2 = some (.ok ⟨s.dht_type, s.value⟩, s) := by
  intro s env1 env2 fuel1 fuel2 h1 h2
  constructor
  · unfold DhtSensor.read
    rw [if_pos h1]
  · unfold DhtSensor.read
    rw [if_pos h2]

/-- Witness for C8 amended: two cache-window calls with different line
environments and fuels return the same cached payload. -/
theorem C8_fast_cache_amended_witness :
    DhtSensor.read ⟨.DHT11, 0, [3, 4, 5, 6, 18]⟩
        (mkEnv lineOkOne 100 1 100) 5 =
      some (.ok ⟨.DHT11, [3, 4, 5, 6, 18]⟩, ⟨.DHT11, 0, [3, 4, 5, 6, 18]⟩) ∧
    DhtSensor.read ⟨.DHT11, 0, [3, 4, 5, 6, 18]⟩
        (mkEnv lineBadChk 200 2 200) 6 =
      some (.ok ⟨.DHT11, [3, 4, 5, 6, 18]⟩, ⟨.DHT11, 0, [3, 4, 5, 6, 18]⟩) :=
  C8_fast_cache_amended ⟨.DHT11, 0, [3, 4, 5, 6, 18]⟩
    (mkEnv lineOkOne 100 1 100) (mkEnv lineBadChk 200 2 200) 5 6
    (by norm_num [mkEnv]) (by norm_num [mkEnv])

end GpioSensors

